import Mathlib

/-!
Verification development for the ExitPrep backend: a shallow embedding of
the token-based authentication flow (`app/utils/auth.py`,
`app/utils/dependencies.py`) and of the ingestion upsert pipeline
(`app/ai/ingestion/ingest_to_db.py`), with theorems settling the
specification's claims about them.
-/

namespace ExitPrep

mutual
/-- A Python/JSON value, as manipulated by the ingestion script
(`json.load` output and the values stored in SQLAlchemy columns).
`none_` models Python `None` / JSON `null`. -/
inductive PyVal where
  | str : String → PyVal
  | bool : Bool → PyVal
  | int : Int → PyVal
  | none_ : PyVal
  | list : PyList → PyVal
  | dict : PyDict → PyVal
deriving DecidableEq, Repr

/-- A Python list of `PyVal`s. -/
inductive PyList where
  | nil : PyList
  | cons : PyVal → PyList → PyList
deriving DecidableEq, Repr

/-- A Python dict with string keys and `PyVal` values. -/
inductive PyDict where
  | nil : PyDict
  | cons : String → PyVal → PyDict → PyDict
deriving DecidableEq, Repr
end

/-- View a `PyList` as an ordinary Lean list. -/
def PyList.toList : PyList → List PyVal
  | .nil => []
  | .cons v rest => v :: rest.toList

/-- Build a `PyList` from an ordinary Lean list (used to write concrete
JSON inputs). -/
def PyList.ofList : List PyVal → PyList
  | [] => .nil
  | v :: rest => .cons v (PyList.ofList rest)

/-- Build a `PyDict` from an association list (used to write concrete
JSON inputs). -/
def PyDict.ofList : List (String × PyVal) → PyDict
  | [] => .nil
  | (k, v) :: rest => .cons k v (PyDict.ofList rest)

/-- `d.get(k)` on a Python dict: the value for the first matching key,
`None` when the key is absent (Python dicts have unique keys, so first
match is the only match). -/
def PyDict.get : PyDict → String → PyVal
  | .nil, _ => .none_
  | .cons k' v rest, k => if k = k' then v else rest.get k

/-- Python truthiness (`bool(v)`) for the values modelled by `PyVal`. -/
def pyTruthy : PyVal → Bool
  | .str s => decide (s ≠ "")
  | .bool b => b
  | .int n => decide (n ≠ 0)
  | .none_ => false
  | .list .nil => false
  | .list (.cons _ _) => true
  | .dict .nil => false
  | .dict (.cons _ _ _) => true

/-- `item[k]` / `item.get(k)` lifted to any `PyVal`; the ingestion code only
applies it to values already checked to be dicts. -/
def pyGet : PyVal → String → PyVal
  | .dict d, k => d.get k
  | _, _ => .none_

/-- Equality of `Except` values is decidable when both components' are. -/
instance {ε α : Type} [DecidableEq ε] [DecidableEq α] : DecidableEq (Except ε α)
  | .ok a, .ok b =>
    if h : a = b then .isTrue (by rw [h]) else .isFalse fun hh => h (Except.ok.inj hh)
  | .ok _, .error _ => .isFalse fun hh => Except.noConfusion hh
  | .error _, .ok _ => .isFalse fun hh => Except.noConfusion hh
  | .error e, .error e' =>
    if h : e = e' then .isTrue (by rw [h]) else .isFalse fun hh => h (Except.error.inj hh)

/-- Python's `str.strip()`: remove leading and trailing whitespace
(defined over the character list so that it evaluates by reduction). -/
def pyStrip (s : String) : String :=
  ⟨((s.data.dropWhile Char.isWhitespace).reverse.dropWhile Char.isWhitespace).reverse⟩

/-! ## Ingestion pipeline (`app/ai/ingestion/ingest_to_db.py`) -/

/-- One option check of `_validate_question_item` (lines 128-134). A key
that is absent fetches as `None`, which fails the `isinstance` check just
as the `not in` test would, so the two-part source condition collapses to
a type test on the fetched value. -/
def validateOption (opt : PyVal) : Except String Unit :=
  match opt with
  | .dict _ =>
    match pyGet opt "text" with
    | .str _ =>
      match pyGet opt "is_correct" with
      | .bool _ => .ok ()
      | _ => .error "Option missing 'is_correct' or it is not a boolean"
    | _ => .error "Option missing 'text' or it is not a string"
  | _ => .error "Each option must be an object/dict"

/-- The `for opt in item["options"]` loop of `_validate_question_item`:
stops at the first invalid option. -/
def validateOptions : List PyVal → Except String Unit
  | [] => .ok ()
  | o :: rest =>
    match validateOption o with
    | .ok () => validateOptions rest
    | .error e => .error e

/-- `_validate_question_item` (lines 114-134): raises `ValueError` (here:
returns the message) on the first structural violation. -/
def validateQuestionItem (item : PyVal) : Except String Unit :=
  match item with
  | .dict _ =>
    match pyGet item "course_name" with
    | .str _ =>
      match pyGet item "question_text" with
      | .str _ =>
        match pyGet item "options" with
        | .list opts => validateOptions opts.toList
        | _ => .error "Missing or invalid 'options' (must be a list)"
      | _ => .error "Missing or invalid 'question_text'"
    | _ => .error "Missing or invalid 'course_name'"
  | _ => .error "Question item is not an object/dict"

/-- The correct-answer loop of `process_file` (lines 175-179):
`correct_answer` starts as `None` and becomes `opt.get("text")` for the
first option whose `opt.get("is_correct")` is truthy. -/
def loopCorrectAnswer : List PyVal → PyVal
  | [] => .none_
  | opt :: rest =>
    if pyTruthy (pyGet opt "is_correct") then pyGet opt "text"
    else loopCorrectAnswer rest

/-- Python's `a or b`: `a` when truthy, else `b`. -/
def pyOrElse (a b : PyVal) : PyVal := if pyTruthy a then a else b

/-- `options[0].get("text") if options else ""` — the parenthesised
fallback of line 185. -/
def headOptionText (options : List PyVal) : PyVal :=
  match options with
  | [] => .str ""
  | opt :: _ => pyGet opt "text"

/-- Line 185: `correct_answer or (options[0].get("text") if options else "")`. -/
def resolvedCorrectAnswer (options : List PyVal) : PyVal :=
  pyOrElse (loopCorrectAnswer options) (headOptionText options)

/-- `QuestionDifficulty` enum of `app/models/question_model.py`. -/
inductive QuestionDifficulty where
  | easy : QuestionDifficulty
  | medium : QuestionDifficulty
  | hard : QuestionDifficulty
deriving DecidableEq, Repr

/-- A row of `courses` (`app/models/course_model.py`); only the columns the
ingestion pipeline touches are tracked; generated UUIDs are modelled by a
store-wide counter. -/
structure CourseRow where
  id : Nat
  title : String
deriving DecidableEq, Repr

/-- A row of `chapters` (`app/models/chapter_model.py`), restricted to the
columns the ingestion pipeline touches. -/
structure ChapterRow where
  id : Nat
  courseId : Nat
  title : String
deriving DecidableEq, Repr

/-- A row of `questions` (`app/models/question_model.py`) as created by
`process_file` lines 181-188: `options` is the raw JSON payload and
`correct_answer` whatever Python value line 185 computed. -/
structure QuestionRow where
  chapterId : Nat
  questionText : String
  options : PyVal
  correctAnswer : PyVal
  difficulty : QuestionDifficulty
  explanation : Option String
deriving DecidableEq, Repr

/-- The persisted Course/Chapter/Question hierarchy the pipeline writes
into (the script imports `Option` but never creates option rows). -/
structure EntityStore where
  courses : List CourseRow
  chapters : List ChapterRow
  questions : List QuestionRow
  nextId : Nat
deriving DecidableEq, Repr

/-- The empty Entity Store. -/
def emptyStore : EntityStore := ⟨[], [], [], 0⟩

/-- Exceptions that can abort a file's transaction. `courseNameAttr` is the
`AttributeError` raised by line 192's success log, which interpolates
`course.name` although `Course` defines no `name` attribute (its column is
`title`); it carries the session state at the raise, which the enclosing
`session.begin()` discards on rollback. -/
inductive IngestErr where
  | multipleResults : IngestErr
  | valueTooLong : IngestErr
  | integrityError : IngestErr
  | courseNameAttr : EntityStore → IngestErr
deriving DecidableEq, Repr

/-- SQLAlchemy's `scalar_one_or_none`: `none` for no row, the row when
unique, and `MultipleResultsFound` otherwise. -/
def scalarOneOrNone {α : Type} (rows : List α) : Except IngestErr (Option α) :=
  match rows with
  | [] => .ok none
  | [r] => .ok (some r)
  | _ :: _ :: _ => .error .multipleResults

/-- `get_or_create_course` (lines 85-98): select by exact title, else add
and flush. The flush enforces `courses.title`'s `String(255)` bound. -/
def getOrCreateCourse (st : EntityStore) (courseName : String) :
    Except IngestErr (CourseRow × EntityStore) :=
  match scalarOneOrNone (st.courses.filter (fun c => c.title == courseName)) with
  | .error e => .error e
  | .ok (some c) => .ok (c, st)
  | .ok none =>
    if courseName.length > 255 then .error .valueTooLong
    else
      let c : CourseRow := ⟨st.nextId, courseName⟩
      .ok (c, { st with courses := st.courses ++ [c], nextId := st.nextId + 1 })

/-- `get_or_create_default_chapter` (lines 101-111); `process_file` always
calls it with the default title `"Imported"`. -/
def getOrCreateDefaultChapter (st : EntityStore) (course : CourseRow) :
    Except IngestErr (ChapterRow × EntityStore) :=
  match scalarOneOrNone
      (st.chapters.filter (fun ch => ch.courseId == course.id && ch.title == "Imported")) with
  | .error e => .error e
  | .ok (some ch) => .ok (ch, st)
  | .ok none =>
    let ch : ChapterRow := ⟨st.nextId, course.id, "Imported"⟩
    .ok (ch, { st with chapters := st.chapters ++ [ch], nextId := st.nextId + 1 })

/-- Fetch a string field of a validated item (validation guarantees the
`.str` case for the fields this is used on). -/
def itemStrField (item : PyVal) (k : String) : String :=
  match pyGet item k with
  | .str s => s
  | _ => ""

/-- The `options` list of a validated item. -/
def itemOptions (item : PyVal) : List PyVal :=
  match pyGet item "options" with
  | .list l => l.toList
  | _ => []

/-- The `Question(...)` constructor call of lines 181-188. -/
def buildQuestion (chapterId : Nat) (questionText : String) (options : List PyVal) :
    QuestionRow :=
  { chapterId := chapterId
    questionText := questionText
    options := .list (PyList.ofList options)
    correctAnswer := resolvedCorrectAnswer options
    difficulty := .medium
    explanation := none }

/-- `session.add(question); session.flush()` (lines 189-190): the flush
enforces `questions.correct_answer`'s `String(255) NOT NULL` column — an
over-long value errors, and a non-string (possible only for unvalidated
data) is rejected by the column type. -/
def flushQuestion (st : EntityStore) (q : QuestionRow) : Except IngestErr EntityStore :=
  match q.correctAnswer with
  | .str s =>
    if s.length > 255 then .error .valueTooLong
    else .ok { st with questions := st.questions ++ [q] }
  | _ => .error .integrityError

/-- One iteration of the `for idx, item in enumerate(data, ...)` loop of
`process_file` (lines 152-192). A validation failure or a duplicate is
logged and skipped (`.ok` with the store unchanged); an exception aborts
the file (`.error`). Every newly inserted record ends in
`IngestErr.courseNameAttr`: line 192's log runs right after the flush and
raises `AttributeError` on `course.name`. -/
def processItem (st : EntityStore) (item : PyVal) : Except IngestErr EntityStore :=
  match validateQuestionItem item with
  | .error _ => .ok st
  | .ok () =>
    let courseName := pyStrip (itemStrField item "course_name")
    let questionText := pyStrip (itemStrField item "question_text")
    let options := itemOptions item
    match scalarOneOrNone (st.questions.filter (fun q => q.questionText == questionText)) with
    | .error e => .error e
    | .ok (some _) => .ok st
    | .ok none =>
      match getOrCreateCourse st courseName with
      | .error e => .error e
      | .ok (course, st1) =>
        match getOrCreateDefaultChapter st1 course with
        | .error e => .error e
        | .ok (chapter, st2) =>
          match flushQuestion st2 (buildQuestion chapter.id questionText options) with
          | .error e => .error e
          | .ok st3 => .error (.courseNameAttr st3)

/-- The record loop of `process_file`, run inside the file's single
`session.begin()` transaction: the first uncaught exception aborts it. -/
def processFileItems (st : EntityStore) : List PyVal → Except IngestErr EntityStore
  | [] => .ok st
  | item :: rest =>
    match processItem st item with
    | .ok st' => processFileItems st' rest
    | .error e => .error e

/-- The content of one batch file as `process_file` sees it: either the
read/parse failed (unreadable file or invalid JSON), or some JSON value
was parsed. -/
inductive FileInput where
  | ioError : FileInput
  | parsed : PyVal → FileInput
deriving DecidableEq, Repr

/-- `process_file` (lines 137-192) composed with `main`'s per-file
`except` (lines 212-216): a read/parse failure or a non-list top level
returns with the store untouched; otherwise the whole record loop runs in
one `session.begin()` transaction, which commits on normal exit and rolls
every one of the file's writes back when an exception escapes the loop. -/
def processFile (st : EntityStore) (f : FileInput) : EntityStore :=
  match f with
  | .ioError => st
  | .parsed (.list items) =>
    match processFileItems st items.toList with
    | .ok st' => st'
    | .error _ => st
  | .parsed _ => st

/-- `main`'s sequential loop over the batch files (lines 212-216). -/
def runIngestion (st : EntityStore) (files : List FileInput) : EntityStore :=
  files.foldl processFile st

/-- Reference semantics written from the specification's words (§4.5 step
7: "one transaction per record's insert-sequence, not per file"): each
record's insert-sequence commits on its own, a failure rolls back only
that record's partial writes, and processing continues. Used solely to
compare the code's behaviour against the claimed granularity. -/
def specProcessRecord (st : EntityStore) (item : PyVal) : EntityStore :=
  match validateQuestionItem item with
  | .error _ => st
  | .ok () =>
    let courseName := pyStrip (itemStrField item "course_name")
    let questionText := pyStrip (itemStrField item "question_text")
    let options := itemOptions item
    match scalarOneOrNone (st.questions.filter (fun q => q.questionText == questionText)) with
    | .error _ => st
    | .ok (some _) => st
    | .ok none =>
      match getOrCreateCourse st courseName with
      | .error _ => st
      | .ok (course, st1) =>
        match getOrCreateDefaultChapter st1 course with
        | .error _ => st
        | .ok (chapter, st2) =>
          match flushQuestion st2 (buildQuestion chapter.id questionText options) with
          | .error _ => st
          | .ok st3 => st3

/-- Per-record-transaction file processing, from the specification's
words (see `specProcessRecord`). -/
def specProcessFilePerRecord (st : EntityStore) (items : List PyVal) : EntityStore :=
  items.foldl specProcessRecord st

/-! ## Credential hasher (`app/utils/auth.py` lines 15-25)

`pwd_context = CryptContext(schemes=["bcrypt_sha256"])`: passlib's
`bcrypt_sha256` pre-hashes the password with HMAC-SHA256 keyed by the
salt, base64-encodes the 32-byte digest into a fixed 44-byte block, and
feeds that block to bcrypt, whose key input ignores every byte beyond the
72nd. The digest is modelled ideally (collision-free): its inputs are
packed injectively into one abstract block. -/

/-- The code points of a string — the byte-string model used by the
hashing embedding. -/
def strBytes (s : String) : List Nat := s.data.map (fun c => c.val.toNat)

/-- Injective packing of a byte string into one number: the base-`2^32`
value of its digits after a trailing sentinel `1`. -/
def packBytes (l : List Nat) : Nat := Nat.ofDigits 4294967296 (l ++ [1])

/-- Ideal (collision-free) model of `hmac_sha256(key, msg)`: the keyed
digest is represented by an injective pairing of key and message. -/
def hmacSha256 (key : Nat) (msg : List Nat) : Nat := Nat.pair key (packBytes msg)

/-- passlib `bcrypt_sha256` key derivation: HMAC-SHA256 keyed by the salt,
then base64 — a fixed-size block, modelled as a one-element byte list, so
bcrypt's 72-byte truncation can never discard any of it. -/
def bcryptSha256Key (salt : Nat) (password : String) : List Nat :=
  [hmacSha256 salt (strBytes password)]

/-- Raw bcrypt ignores every key byte beyond the 72nd. -/
def bcryptTruncate (key : List Nat) : List Nat := key.take 72

/-- Ideal model of a bcrypt modular-crypt-format hash: it records the
cost, the salt, and a one-way image of the truncated key — the image is
modelled by the truncated key itself (collision-freeness of the
primitive). -/
structure BcryptDigest where
  cost : Nat
  salt : Nat
  key : List Nat
deriving DecidableEq, Repr

/-- The bcrypt core applied to a (cost, salt, key) triple. -/
def bcryptRaw (cost salt : Nat) (key : List Nat) : BcryptDigest :=
  ⟨cost, salt, bcryptTruncate key⟩

/-- `hash_password` (lines 20-21): `pwd_context.hash` under the
`bcrypt_sha256` scheme; `cost` and `salt` stand for the randomness passlib
draws per call. -/
def hashPassword (cost salt : Nat) (password : String) : BcryptDigest :=
  bcryptRaw cost salt (bcryptSha256Key salt password)

/-- `verify_password` (lines 24-25): re-derive with the cost and salt
stored in the hash and compare. -/
def verifyPassword (password : String) (h : BcryptDigest) : Bool :=
  decide (bcryptRaw h.cost h.salt (bcryptSha256Key h.salt password) = h)

/-! ## Token issuer/verifier (`app/utils/auth.py` lines 29-41) -/

/-- A value stored in a JWT claims payload (strings for `sub`/`email`,
numbers for `exp`). -/
inductive ClaimVal where
  | s : String → ClaimVal
  | n : Nat → ClaimVal
deriving DecidableEq, Repr

/-- A claims payload (a Python dict with string keys). -/
abbrev Claims := List (String × ClaimVal)

/-- Dict lookup on a claims payload (first matching key). -/
def claimsGet : Claims → String → Option ClaimVal
  | [], _ => none
  | (k', v) :: rest, k => if k = k' then some v else claimsGet rest k

/-- `d.update({k: v})` on a claims payload: overwrite the key in place if
present, append otherwise. -/
def claimsSet (d : Claims) (k : String) (v : ClaimVal) : Claims :=
  if (claimsGet d k).isSome then d.map (fun p => if p.1 = k then (k, v) else p)
  else d ++ [(k, v)]

/-- Python dict equality: the same keys mapped to the same values. -/
def claimsEquiv (d₁ d₂ : Claims) : Prop := ∀ k, claimsGet d₁ k = claimsGet d₂ k

/-- An HMAC signature over a JWT payload, modelled ideally: the MAC is
collision-free, so it is represented by the (algorithm, key, payload)
triple it authenticates. -/
structure JWTSig where
  alg : String
  key : String
  payload : Claims
deriving DecidableEq, Repr

/-- A signed token: the (readable) payload plus its signature. -/
structure JWTToken where
  payload : Claims
  sig : JWTSig
deriving DecidableEq, Repr

/-- The failures `jose.jwt.decode` can raise: bad signature, expired `exp`
claim, or a malformed (non-integer) `exp` claim. -/
inductive JWTError where
  | invalidSignature : JWTError
  | expiredSignature : JWTError
  | claimsError : JWTError
deriving DecidableEq, Repr

/-- `jose.jwt.encode(payload, key, algorithm=alg)`. -/
def jwtEncode (payload : Claims) (key alg : String) : JWTToken :=
  ⟨payload, ⟨alg, key, payload⟩⟩

/-- `jose.jwt.decode(token, key, algorithms=[alg])` evaluated at time
`now`: the signature must verify under exactly this key and algorithm,
then the `exp` claim (when present) must be an integer that is not in the
past — `ExpiredSignatureError` is raised when `exp < now`. -/
def jwtDecode (token : JWTToken) (key alg : String) (now : Nat) : Except JWTError Claims :=
  if token.sig = ⟨alg, key, token.payload⟩ then
    match claimsGet token.payload "exp" with
    | some (.n exp) => if exp < now then .error .expiredSignature else .ok token.payload
    | some (.s _) => .error .claimsError
    | none => .ok token.payload
  else .error .invalidSignature

/-- The fields of `app/utils/config.py`'s `Settings` used by the token
code. -/
structure Settings where
  jwtSecretKey : String
  jwtAlgorithm : String
  accessTokenExpireMinutes : Nat
deriving DecidableEq, Repr

/-- `expires_delta or timedelta(minutes=settings.ACCESS_TOKEN_EXPIRE_MINUTES)`
(lines 32-34): Python's `or` treats both `None` and the zero timedelta as
falsy. Timedeltas are modelled in seconds. -/
def expiresOrDefault (expiresDelta : Option Nat) (S : Settings) : Nat :=
  match expiresDelta with
  | some d => if d = 0 then S.accessTokenExpireMinutes * 60 else d
  | none => S.accessTokenExpireMinutes * 60

/-- `create_access_token` (lines 29-37) called at time `now`. -/
def createAccessToken (S : Settings) (now : Nat) (data : Claims)
    (expiresDelta : Option Nat) : JWTToken :=
  jwtEncode (claimsSet data "exp" (.n (now + expiresOrDefault expiresDelta S)))
    S.jwtSecretKey S.jwtAlgorithm

/-- `decode_access_token` (lines 39-41) called at time `now`. -/
def decodeAccessToken (S : Settings) (now : Nat) (token : JWTToken) :
    Except JWTError Claims :=
  jwtDecode token S.jwtSecretKey S.jwtAlgorithm now

/-! ## Identity resolver (`app/utils/dependencies.py`) -/

/-- How a call of `get_current_user` can fail: the uniform
`credentials_exception` (HTTP 401 "Could not validate credentials"), or an
exception escaping the handler (HTTP 500). -/
inductive AuthResult where
  | unauthorized : AuthResult
  | internalError : AuthResult
deriving DecidableEq, Repr

/-- A row of `users` restricted to what the resolver reads; `id` is the
canonical string form of the UUID. -/
structure UserRow where
  id : String
  email : String
deriving DecidableEq, Repr

/-- The names `app/utils/dependencies.py` binds at module level (its
imports plus its own definitions). Notably absent: `decode_access_token`,
`select`, `User` and `Any`, all of which the body of `get_current_user`
uses. -/
def dependenciesModuleBindings : List String :=
  ["annotations", "uuid", "Depends", "HTTPException", "status",
   "OAuth2PasswordBearer", "AsyncSession", "get_db", "oauth2_scheme",
   "get_current_user"]

/-- Python `str(v)` on a claim value. -/
def claimStr : ClaimVal → String
  | .s s => s
  | .n n => toString n

/-- Hexadecimal digit test. -/
def isHexChar (c : Char) : Bool := c.isDigit || "abcdefABCDEF".contains c

/-- Simplified model of `uuid.UUID(s)`: accept 32 hex digits with optional
hyphens and normalise to lowercase, reject anything else with
`ValueError`. (Reached only in the hypothetical branch below.) -/
def uuidParse (sv : String) : Option String :=
  let hex := sv.data.filter (fun c => c ≠ '-')
  if hex.length == 32 && hex.all isHexChar then
    some (String.mk (hex.map Char.toLower))
  else none

/-- The body of `get_current_user` under the hypothesis that the unbound
name `decode_access_token` were available: decode the token, require the
`sub` and `email` claims, parse `sub` as a UUID (any failure so far is
caught by `except Exception` and becomes the uniform 401), then run the
`select(User).where(User.id == user_id, User.email == email)` lookup —
except that `select` and `User` are also unbound, and line 37 sits outside
the `try`, so reaching it would raise an unhandled `NameError` (HTTP 500). -/
def getCurrentUserIntended (S : Settings) (now : Nat) (token : JWTToken)
    (users : List UserRow) : Except AuthResult UserRow :=
  match decodeAccessToken S now token with
  | .error _ => .error .unauthorized
  | .ok payload =>
    match claimsGet payload "sub", claimsGet payload "email" with
    | some sub, some emailv =>
      match uuidParse (claimStr sub) with
      | none => .error .unauthorized
      | some userId =>
        if "select" ∈ dependenciesModuleBindings then
          match users.filter (fun u =>
              u.id == userId &&
              (match emailv with | .s e => u.email == e | _ => false)) with
          | [] => .error .unauthorized
          | [u] => .ok u
          | _ :: _ :: _ => .error .internalError
        else .error .internalError
    | _, _ => .error .unauthorized

/-- `get_current_user` (lines 13-45). The module never imports
`decode_access_token`, so the first statement of the `try` raises
`NameError`; `except Exception` catches it and the uniform
`credentials_exception` is raised instead — on every call, whatever the
token or the user table. -/
def getCurrentUser (S : Settings) (now : Nat) (token : JWTToken)
    (users : List UserRow) : Except AuthResult UserRow :=
  if "decode_access_token" ∈ dependenciesModuleBindings then
    getCurrentUserIntended S now token users
  else .error .unauthorized

/-! ## Concrete input builders -/

/-- A JSON option object `{"text": t, "is_correct": c}`. -/
def mkOptionDict (t : String) (c : Bool) : PyVal :=
  .dict (PyDict.ofList [("text", .str t), ("is_correct", .bool c)])

/-- A JSON question record
`{"course_name": cn, "question_text": qt, "options": opts}`. -/
def mkQuestionItem (cn qt : String) (opts : List PyVal) : PyVal :=
  .dict (PyDict.ofList
    [("course_name", .str cn), ("question_text", .str qt),
     ("options", .list (PyList.ofList opts))])

/-! ## Structural lemmas about the ingestion pipeline -/

/-- A loop iteration that finishes without an exception leaves the session
state unchanged: the only state-changing path (a fresh insert) always ends
in the line-192 `AttributeError`. -/
theorem processItem_ok_eq {st : EntityStore} {item : PyVal} {st' : EntityStore}
    (h : processItem st item = .ok st') : st' = st := by
  unfold processItem at h
  split at h
  · exact (Except.ok.inj h).symm
  · dsimp only at h
    split at h
    · exact absurd h (by simp)
    · exact (Except.ok.inj h).symm
    · split at h
      · exact absurd h (by simp)
      · split at h
        · exact absurd h (by simp)
        · split at h
          · exact absurd h (by simp)
          · exact absurd h (by simp)

/-- A record loop that finishes without an exception leaves the session
state unchanged. -/
theorem processFileItems_ok_eq {items : List PyVal} :
    ∀ {st st' : EntityStore}, processFileItems st items = .ok st' → st' = st := by
  induction items with
  | nil => intro st st' h; unfold processFileItems at h; exact (Except.ok.inj h).symm
  | cons item rest ih =>
    intro st st' h
    unfold processFileItems at h
    cases hpi : processItem st item with
    | ok st₁ =>
      rw [hpi] at h
      rw [ih h, processItem_ok_eq hpi]
    | error e => rw [hpi] at h; exact absurd h (by simp)

/-- Processing any one batch file leaves the Entity Store unchanged:
either nothing in the file caused a write (commit of an unchanged state),
or the first write raised at its success log and the file's single
transaction rolled everything back. -/
theorem processFile_eq (st : EntityStore) (f : FileInput) : processFile st f = st := by
  cases f with
  | ioError => rfl
  | parsed v =>
    cases v with
    | list items =>
      have hdef : processFile st (.parsed (.list items)) =
          (match processFileItems st items.toList with
           | .ok st' => st'
           | .error _ => st) := rfl
      rw [hdef]
      cases hp : processFileItems st items.toList with
      | ok st' => exact processFileItems_ok_eq hp
      | error e => rfl
    | str s => rfl
    | bool b => rfl
    | int n => rfl
    | none_ => rfl
    | dict d => rfl

/-- A whole ingestion run leaves the Entity Store unchanged. -/
theorem runIngestion_eq (st : EntityStore) (files : List FileInput) :
    runIngestion st files = st := by
  induction files generalizing st with
  | nil => rfl
  | cons f rest ih =>
    show List.foldl processFile (processFile st f) rest = st
    rw [processFile_eq]
    exact ih st

/-! ## Concrete inputs used by the claim theorems -/

/-- A valid, fresh question record. -/
def itemC1 : PyVal :=
  mkQuestionItem "Mathematics" "What is 2+2?" [mkOptionDict "3" false, mkOptionDict "4" true]

/-- The Question row `process_file` builds for `itemC1`. -/
def qRowC1 : QuestionRow :=
  { chapterId := 1
    questionText := "What is 2+2?"
    options := .list (PyList.ofList [mkOptionDict "3" false, mkOptionDict "4" true])
    correctAnswer := .str "4"
    difficulty := .medium
    explanation := none }

/-- The session state right after `itemC1`'s insert-sequence flushed
(course and default chapter created, question row flushed). -/
def stC1 : EntityStore :=
  { courses := [⟨0, "Mathematics"⟩]
    chapters := [⟨1, 0, "Imported"⟩]
    questions := [qRowC1]
    nextId := 2 }

/-- A record whose question text trims to `qRowC1`'s persisted text. -/
def itemC2 : PyVal :=
  mkQuestionItem "Mathematics" "  What is 2+2?  " [mkOptionDict "5" false]

/-! ## C1 -/

/-- **C1** (counterexample). One file holding the single valid record
`itemC1`, against an empty store: the record's insert-sequence completes —
the transaction state carried by the raised error contains its flushed
Question row — and the per-record-transaction semantics the claim
describes (`specProcessFilePerRecord`) would persist it; the code instead
leaves the store empty, because the post-insert success log (line 192)
raises `AttributeError` on `course.name` and the file-wide transaction
rolls the completed insert back. -/
theorem C1_counterexample :
    processItem emptyStore itemC1 = .error (.courseNameAttr stC1)
    ∧ stC1.questions = [qRowC1]
    ∧ runIngestion emptyStore [.parsed (.list (PyList.ofList [itemC1]))] = emptyStore
    ∧ specProcessFilePerRecord emptyStore [itemC1] = stC1 :=
  ⟨by decide, by decide, by decide, by decide⟩

/-- **C1** (amended): the ingestion pipeline uses one transaction per
file, not per record. When processing any record of a file raises, all of
that file's writes — including records whose insert-sequence had already
completed — are rolled back, leaving the store exactly as it was before
the file; each file is processed in its own transaction, so the outcome
of earlier files is unaffected. -/
theorem C1_per_file_transaction :
    (∀ (st : EntityStore) (items : PyList) (e : IngestErr),
        processFileItems st items.toList = .error e →
        processFile st (.parsed (.list items)) = st)
    ∧ ∀ (st : EntityStore) (f : FileInput) (files : List FileInput),
        runIngestion st (f :: files) = runIngestion (processFile st f) files := by
  constructor
  · intro st items e h
    have hdef : processFile st (.parsed (.list items)) =
        (match processFileItems st items.toList with
         | .ok st' => st'
         | .error _ => st) := rfl
    rw [hdef, h]
  · intro st f files
    rfl

/-- Witness for `C1_per_file_transaction` at a concrete input: the file
`[itemC1]` raises (at the line-192 log, with `itemC1`'s insert already
flushed) and the store is rolled back to its pre-file state. -/
theorem C1_per_file_transaction_witness :
    processFileItems emptyStore (PyList.ofList [itemC1]).toList
      = .error (.courseNameAttr stC1)
    ∧ processFile emptyStore (.parsed (.list (PyList.ofList [itemC1]))) = emptyStore :=
  ⟨by decide,
   C1_per_file_transaction.1 emptyStore (PyList.ofList [itemC1])
     (.courseNameAttr stC1) (by decide)⟩

/-! ## C2 -/

/-- **C2**: running the ingestion pipeline twice on the same batch leaves
the Entity Store exactly as running it once leaves it (in this code both
runs leave the store unchanged: the only inserting path aborts at its
success log and is rolled back), and a record whose (stripped) question
text already matches a persisted question is skipped: its loop iteration
ends without inserting anything. -/
theorem C2_dedup_idempotent :
    (∀ (st : EntityStore) (files : List FileInput),
        runIngestion (runIngestion st files) files = runIngestion st files)
    ∧ ∀ (st : EntityStore) (item : PyVal) (q : QuestionRow),
        validateQuestionItem item = .ok () →
        scalarOneOrNone (st.questions.filter
          (fun qq => qq.questionText == pyStrip (itemStrField item "question_text")))
          = .ok (some q) →
        processItem st item = .ok st := by
  constructor
  · intro st files
    rw [runIngestion_eq, runIngestion_eq]
  · intro st item q hval hdup
    unfold processItem
    rw [hval]
    dsimp only
    rw [hdup]

/-- Witness for `C2_dedup_idempotent`: against a store already holding
`qRowC1`, the record `itemC2` (whose text strips to the persisted text)
is skipped and the store is unchanged. -/
theorem C2_dedup_idempotent_witness :
    validateQuestionItem itemC2 = .ok ()
    ∧ scalarOneOrNone (stC1.questions.filter
        (fun qq => qq.questionText == pyStrip (itemStrField itemC2 "question_text")))
        = .ok (some qRowC1)
    ∧ processItem stC1 itemC2 = .ok stC1 :=
  ⟨by decide, by decide,
   C2_dedup_idempotent.2 stC1 itemC2 qRowC1 (by decide) (by decide)⟩

/-! ## C8 -/

/-- **C8**: a record that fails shape validation only produces a logged
skip — the file is processed exactly as if the record were absent — and a
file whose content is unreadable, fails to parse, or is not a top-level
JSON list aborts only that file: the run continues with the remaining
files over an untouched store. -/
theorem C8_malformed_isolation :
    (∀ (st : EntityStore) (pre post : List PyVal) (bad : PyVal) (e : String),
        validateQuestionItem bad = .error e →
        processFileItems st (pre ++ bad :: post) = processFileItems st (pre ++ post))
    ∧ (∀ (st : EntityStore) (rest : List FileInput),
        runIngestion st (.ioError :: rest) = runIngestion st rest)
    ∧ ∀ (st : EntityStore) (v : PyVal) (rest : List FileInput),
        (∀ pl : PyList, v ≠ .list pl) →
        runIngestion st (.parsed v :: rest) = runIngestion st rest := by
  refine ⟨?_, ?_, ?_⟩
  · intro st pre post bad e hbad
    induction pre generalizing st with
    | nil =>
      have hskip : processItem st bad = .ok st := by
        unfold processItem
        rw [hbad]
      have hstep : processFileItems st (bad :: post) =
          (match processItem st bad with
           | .ok st' => processFileItems st' post
           | .error e => .error e) := rfl
      show processFileItems st (bad :: post) = processFileItems st post
      rw [hstep, hskip]
    | cons p pre' ih =>
      have hstepL : processFileItems st ((p :: pre') ++ bad :: post) =
          (match processItem st p with
           | .ok st' => processFileItems st' (pre' ++ bad :: post)
           | .error e => .error e) := rfl
      have hstepR : processFileItems st ((p :: pre') ++ post) =
          (match processItem st p with
           | .ok st' => processFileItems st' (pre' ++ post)
           | .error e => .error e) := rfl
      rw [hstepL, hstepR]
      cases hp : processItem st p with
      | ok st₁ => exact ih st₁
      | error e' => rfl
  · intro st rest
    rfl
  · intro st v rest hv
    cases v with
    | list pl => exact absurd rfl (hv pl)
    | str s => rfl
    | bool b => rfl
    | int n => rfl
    | none_ => rfl
    | dict d => rfl

/-- Witness for `C8_malformed_isolation`: a non-object record in the
middle of a file is skipped (the file processes as if it were absent),
and a file parsed to a non-list top level leaves the run unchanged. -/
theorem C8_malformed_isolation_witness :
    validateQuestionItem (PyVal.str "not-an-object")
      = .error "Question item is not an object/dict"
    ∧ processFileItems emptyStore ([itemC1] ++ PyVal.str "not-an-object" :: [itemC2])
        = processFileItems emptyStore ([itemC1] ++ [itemC2])
    ∧ runIngestion emptyStore [.parsed (.str "oops")]
        = runIngestion emptyStore [] :=
  ⟨by decide,
   C8_malformed_isolation.1 emptyStore [itemC1] [itemC2] (PyVal.str "not-an-object")
     "Question item is not an object/dict" (by decide),
   C8_malformed_isolation.2.2 emptyStore (PyVal.str "oops") []
     (fun pl h => PyVal.noConfusion h)⟩

/-! ## C10 -/

/-- **C10**: a record whose `options` field is the empty list passes shape
validation (the option loop is vacuous; only elements are constrained),
its extracted options list is empty, and the Question built for it gets
the empty string as `correct_answer` (line 185's `if options else ""`
branch). -/
theorem C10_empty_options_accepted :
    ∀ (cn qt : String),
      validateQuestionItem (mkQuestionItem cn qt []) = .ok ()
      ∧ itemOptions (mkQuestionItem cn qt []) = []
      ∧ ∀ cid : Nat, (buildQuestion cid qt []).correctAnswer = .str "" := by
  intro cn qt
  exact ⟨rfl, rfl, fun _ => rfl⟩

/-! ## C9 -/

/-- `scalar_one_or_none` only ever raises `MultipleResultsFound`. -/
theorem scalarOneOrNone_error {α : Type} {rows : List α} {e : IngestErr}
    (h : scalarOneOrNone rows = .error e) : e = .multipleResults := by
  unfold scalarOneOrNone at h
  split at h
  · exact absurd h (by simp)
  · exact absurd h (by simp)
  · exact (Except.error.inj h).symm

/-- The failures `get_or_create_course` can raise. -/
theorem getOrCreateCourse_error {st : EntityStore} {cn : String} {e : IngestErr}
    (h : getOrCreateCourse st cn = .error e) :
    e = .multipleResults ∨ e = .valueTooLong := by
  unfold getOrCreateCourse at h
  split at h
  · rename_i e' heq
    exact Or.inl ((Except.error.inj h).symm.trans (scalarOneOrNone_error heq))
  · exact absurd h (by simp)
  · split at h
    · exact Or.inr (Except.error.inj h).symm
    · exact absurd h (by simp)

/-- The failures `get_or_create_default_chapter` can raise. -/
theorem getOrCreateDefaultChapter_error {st : EntityStore} {c : CourseRow}
    {e : IngestErr} (h : getOrCreateDefaultChapter st c = .error e) :
    e = .multipleResults := by
  unfold getOrCreateDefaultChapter at h
  split at h
  · rename_i e' heq
    exact (Except.error.inj h).symm.trans (scalarOneOrNone_error heq)
  · exact absurd h (by simp)
  · exact absurd h (by simp)

/-- The failures flushing a question can raise. -/
theorem flushQuestion_error {st : EntityStore} {q : QuestionRow} {e : IngestErr}
    (h : flushQuestion st q = .error e) :
    e = .valueTooLong ∨ e = .integrityError := by
  unfold flushQuestion at h
  split at h
  · split at h
    · exact Or.inl (Except.error.inj h).symm
    · exact absurd h (by simp)
  · exact Or.inr (Except.error.inj h).symm

/-- `get_or_create_course` never touches the questions table. -/
theorem getOrCreateCourse_questions {st st' : EntityStore} {cn : String}
    {c : CourseRow} (h : getOrCreateCourse st cn = .ok (c, st')) :
    st'.questions = st.questions := by
  unfold getOrCreateCourse at h
  split at h
  · exact absurd h (by simp)
  · have hp := Except.ok.inj h
    injection hp with h1 h2
    rw [← h2]
  · split at h
    · exact absurd h (by simp)
    · have hp := Except.ok.inj h
      injection hp with h1 h2
      rw [← h2]

/-- `get_or_create_default_chapter` never touches the questions table. -/
theorem getOrCreateDefaultChapter_questions {st st' : EntityStore}
    {c : CourseRow} {ch : ChapterRow}
    (h : getOrCreateDefaultChapter st c = .ok (ch, st')) :
    st'.questions = st.questions := by
  unfold getOrCreateDefaultChapter at h
  split at h
  · exact absurd h (by simp)
  · have hp := Except.ok.inj h
    injection hp with h1 h2
    rw [← h2]
  · have hp := Except.ok.inj h
    injection hp with h1 h2
    rw [← h2]

/-- A successful flush appends exactly the built question row. -/
theorem flushQuestion_questions {st st' : EntityStore} {q : QuestionRow}
    (h : flushQuestion st q = .ok st') :
    st'.questions = st.questions ++ [q] := by
  unfold flushQuestion at h
  split at h
  · split at h
    · exact absurd h (by simp)
    · have hp := Except.ok.inj h
      rw [← hp]
  · exact absurd h (by simp)

/-- **C9**: every Question the pipeline constructs is created with
`difficulty=medium` and `explanation=None` (lines 186-187 hard-code both),
and consequently any question row present in a transaction state reached
by processing a record, beyond those already in the store, carries
`difficulty=medium` and `explanation=None`. -/
theorem C9_fixed_difficulty_explanation :
    (∀ (cid : Nat) (qt : String) (opts : List PyVal),
        (buildQuestion cid qt opts).difficulty = .medium
        ∧ (buildQuestion cid qt opts).explanation = none)
    ∧ ∀ (st : EntityStore) (item : PyVal) (stX : EntityStore),
        processItem st item = .error (.courseNameAttr stX) →
        ∀ q ∈ stX.questions, q ∈ st.questions
          ∨ (q.difficulty = .medium ∧ q.explanation = none) := by
  constructor
  · intro cid qt opts
    exact ⟨rfl, rfl⟩
  · intro st item stX h q hq
    unfold processItem at h
    split at h
    · exact absurd h (by simp)
    · dsimp only at h
      split at h
      · rename_i e' heq
        rw [scalarOneOrNone_error heq] at h
        exact absurd (Except.error.inj h) (by simp)
      · exact absurd h (by simp)
      · split at h
        · rename_i e' heq
          rcases getOrCreateCourse_error heq with he | he <;> rw [he] at h <;>
            exact absurd (Except.error.inj h) (by simp)
        · rename_i course st1 heqc
          split at h
          · rename_i e' heq
            rw [getOrCreateDefaultChapter_error heq] at h
            exact absurd (Except.error.inj h) (by simp)
          · rename_i chapter st2 heqch
            split at h
            · rename_i e' heq
              rcases flushQuestion_error heq with he | he <;> rw [he] at h <;>
                exact absurd (Except.error.inj h) (by simp)
            · rename_i st3 heqf
              have hst : st3 = stX := IngestErr.courseNameAttr.inj (Except.error.inj h)
              subst hst
              rw [flushQuestion_questions heqf, getOrCreateDefaultChapter_questions heqch,
                getOrCreateCourse_questions heqc] at hq
              rcases List.mem_append.mp hq with hmem | hmem
              · exact Or.inl hmem
              · have hb := List.mem_singleton.mp hmem
                subst hb
                exact Or.inr ⟨rfl, rfl⟩

/-- Witness for `C9_fixed_difficulty_explanation`: the row flushed for
`itemC1` (not previously in the empty store) has `difficulty=medium` and
`explanation=None`. -/
theorem C9_fixed_difficulty_explanation_witness :
    processItem emptyStore itemC1 = .error (.courseNameAttr stC1)
    ∧ (qRowC1 ∈ emptyStore.questions
        ∨ (qRowC1.difficulty = .medium ∧ qRowC1.explanation = none)) :=
  ⟨by decide,
   C9_fixed_difficulty_explanation.2 emptyStore itemC1 stC1 (by decide) qRowC1 (by decide)⟩

/-! ## C3 -/

/-- "The first option whose `is_correct` flag is true", as the claim words
it (used only to state C3's amended form). -/
def firstFlaggedOption (options : List PyVal) : Option PyVal :=
  options.find? (fun o => decide (pyGet o "is_correct" = .bool true))

/-- C3's amended resolution rule: the text of the first flagged option
when that text is non-empty; the text of the first option in the list
otherwise (no option flagged, or the flagged text empty). -/
def amendedCorrectAnswer (options : List PyVal) : PyVal :=
  match firstFlaggedOption options with
  | some opt =>
    if pyGet opt "text" = .str "" then headOptionText options else pyGet opt "text"
  | none => headOptionText options

/-- A validated option carries a string `text` and a boolean `is_correct`. -/
theorem validateOption_shape {o : PyVal} (h : validateOption o = .ok ()) :
    ∃ t b, pyGet o "text" = .str t ∧ pyGet o "is_correct" = .bool b := by
  unfold validateOption at h
  split at h
  · split at h
    · rename_i t ht
      split at h
      · rename_i b hb
        exact ⟨t, b, ht, hb⟩
      · exact absurd h (by simp)
    · exact absurd h (by simp)
  · exact absurd h (by simp)

/-- In a validated options list, every option is validated. -/
theorem validateOptions_forall {options : List PyVal}
    (h : validateOptions options = .ok ()) :
    ∀ o ∈ options, validateOption o = .ok () := by
  induction options with
  | nil => exact fun o ho => absurd ho (List.not_mem_nil o)
  | cons p rest ih =>
    have hstep : validateOptions (p :: rest) =
        (match validateOption p with
         | .ok () => validateOptions rest
         | .error e => .error e) := rfl
    rw [hstep] at h
    cases hp : validateOption p with
    | ok u =>
      cases u
      rw [hp] at h
      dsimp only at h
      intro o ho
      rcases List.mem_cons.mp ho with rfl | hmem
      · exact hp
      · exact ih h o hmem
    | error e =>
      rw [hp] at h
      exact absurd h (by simp)

/-- Over validated options, the source's correct-answer loop returns the
text of the first flagged option, or `None` when no option is flagged. -/
theorem loopCorrectAnswer_eq {options : List PyVal}
    (h : validateOptions options = .ok ()) :
    loopCorrectAnswer options =
      (match firstFlaggedOption options with
       | some opt => pyGet opt "text"
       | none => .none_) := by
  induction options with
  | nil => rfl
  | cons o rest ih =>
    have ho := validateOptions_forall h o (List.mem_cons_self o rest)
    have hrest : validateOptions rest = .ok () := by
      have hstep : validateOptions (o :: rest) =
          (match validateOption o with
           | .ok () => validateOptions rest
           | .error e => .error e) := rfl
      rw [hstep, ho] at h
      exact h
    obtain ⟨t, b, ht, hb⟩ := validateOption_shape ho
    have hloop : loopCorrectAnswer (o :: rest) =
        (if pyTruthy (pyGet o "is_correct") then pyGet o "text"
         else loopCorrectAnswer rest) := rfl
    cases b with
    | true =>
      have hffc : firstFlaggedOption (o :: rest) = some o := by
        unfold firstFlaggedOption
        exact List.find?_cons_of_pos rest (by rw [hb]; decide)
      have hcond : pyTruthy (pyGet o "is_correct") = true := by rw [hb]; rfl
      rw [hloop, hcond, hffc]
      simp
    | false =>
      have hffc : firstFlaggedOption (o :: rest) = firstFlaggedOption rest := by
        unfold firstFlaggedOption
        exact List.find?_cons_of_neg rest (by rw [hb]; decide)
      have hcond : pyTruthy (pyGet o "is_correct") = false := by rw [hb]; rfl
      rw [hloop, hcond, hffc]
      simp only [Bool.false_eq_true, if_false]
      exact ih hrest

/-- The resolution of lines 174-185 agrees with the amended rule on every
validated options list. -/
theorem resolvedCorrectAnswer_amended_eq {options : List PyVal}
    (h : validateOptions options = .ok ()) :
    resolvedCorrectAnswer options = amendedCorrectAnswer options := by
  unfold resolvedCorrectAnswer amendedCorrectAnswer
  rw [loopCorrectAnswer_eq h]
  cases hff : firstFlaggedOption options with
  | none => rfl
  | some opt =>
    have hmem : opt ∈ options := by
      unfold firstFlaggedOption at hff
      exact List.mem_of_find?_eq_some hff
    obtain ⟨t, b, ht, hb⟩ := validateOption_shape (validateOptions_forall h opt hmem)
    dsimp only
    rw [ht]
    by_cases htt : t = ""
    · subst htt
      simp [pyOrElse, pyTruthy]
    · simp [pyOrElse, pyTruthy, htt]

/-- **C3** (counterexample). For options
`[{"text":"a","is_correct":false}, {"text":"","is_correct":true}]` the
first option flagged `is_correct=true` is the second, whose text is `""`;
the claim demands `""`, but the code resolves `"a"`: line 185's `or`
treats the flagged empty-string text as falsy and falls back to the first
option's text. -/
theorem C3_counterexample :
    pyGet (mkOptionDict "" true) "is_correct" = .bool true
    ∧ resolvedCorrectAnswer [mkOptionDict "a" false, mkOptionDict "" true] ≠ .str ""
    ∧ resolvedCorrectAnswer [mkOptionDict "a" false, mkOptionDict "" true] = .str "a" :=
  ⟨by decide, by decide, by decide⟩

/-- **C3** (amended): for every validated options list, the resolved
correct option is the text of the first option flagged `is_correct=true`
provided that text is non-empty; when no option is flagged — or the
flagged option's text is the empty string — it is the text of the first
option in the list. The claim's two concrete examples hold as stated. -/
theorem C3_first_flagged_with_falsy_fallback :
    (∀ options : List PyVal, validateOptions options = .ok () →
        resolvedCorrectAnswer options = amendedCorrectAnswer options)
    ∧ resolvedCorrectAnswer [mkOptionDict "3" false, mkOptionDict "4" true] = .str "4"
    ∧ resolvedCorrectAnswer [mkOptionDict "x" false, mkOptionDict "y" false] = .str "x" :=
  ⟨fun _ h => resolvedCorrectAnswer_amended_eq h, by decide, by decide⟩

/-- Witness for `C3_first_flagged_with_falsy_fallback` at the concrete
options list of the counterexample. -/
theorem C3_first_flagged_with_falsy_fallback_witness :
    validateOptions [mkOptionDict "a" false, mkOptionDict "" true] = .ok ()
    ∧ resolvedCorrectAnswer [mkOptionDict "a" false, mkOptionDict "" true]
        = amendedCorrectAnswer [mkOptionDict "a" false, mkOptionDict "" true] :=
  ⟨by decide, C3_first_flagged_with_falsy_fallback.1 _ (by decide)⟩

/-! ## C4 -/

/-- **C4** (code bug): the identity resolver returns the uniform 401 on
*every* call — even for a token signed with the server secret, carrying
both `sub` and `email` claims of a persisted user — because
`app/utils/dependencies.py` never imports `decode_access_token` (nor
`select`, `User`): the first statement of its `try` block raises
`NameError`, which `except Exception` converts into the uniform
`credentials_exception`. The resolver can never succeed, contradicting
its own docstring ("validates JWT token and returns the current user"). -/
theorem C4_resolver_never_succeeds :
    ∀ (S : Settings) (now : Nat) (token : JWTToken) (users : List UserRow),
      getCurrentUser S now token users = .error .unauthorized := by
  intro S now token users
  unfold getCurrentUser
  rw [if_neg (by decide)]

/-! ## C6 and C7 -/

/-- Settings used by the token claims' concrete instances. -/
def testSettings : Settings := ⟨"server-secret", "HS256", 30⟩

/-- The same settings with a different signing secret. -/
def otherSettings : Settings := ⟨"other-secret", "HS256", 30⟩

/-- Looking up the updated key after a `dict.update`-style overwrite. -/
theorem claimsGet_map_update {k : String} (v : ClaimVal) :
    ∀ {d : Claims}, (claimsGet d k).isSome = true →
      claimsGet (d.map (fun p => if p.1 = k then (k, v) else p)) k = some v := by
  intro d
  induction d with
  | nil => intro hsome; simp [claimsGet] at hsome
  | cons p rest ih =>
    intro hsome
    obtain ⟨k₀, v₀⟩ := p
    by_cases hk : k = k₀
    · subst hk
      simp only [List.map_cons]
      rw [if_pos trivial]
      simp only [claimsGet]
      rw [if_pos trivial]
    · have hne : ¬ (k₀ = k) := fun hh => hk hh.symm
      have hs : (claimsGet rest k).isSome = true := by
        simpa [claimsGet, hk] using hsome
      simp only [List.map_cons]
      rw [show (if (k₀, v₀).1 = k then (k, v) else (k₀, v₀)) = (k₀, v₀) from if_neg hne]
      simp only [claimsGet]
      rw [if_neg hk]
      exact ih hs

/-- Looking up the appended key after a `dict.update`-style insert. -/
theorem claimsGet_append_self {k : String} (v : ClaimVal) :
    ∀ {d : Claims}, claimsGet d k = none →
      claimsGet (d ++ [(k, v)]) k = some v := by
  intro d
  induction d with
  | nil => intro _; simp [claimsGet]
  | cons p rest ih =>
    intro hnone
    obtain ⟨k₀, v₀⟩ := p
    by_cases hk : k = k₀
    · simp [claimsGet, hk] at hnone
    · have hrest : claimsGet rest k = none := by
        simpa [claimsGet, hk] using hnone
      simp only [List.cons_append, claimsGet]
      rw [if_neg hk]
      exact ih hrest

/-- `d.update({k: v})` makes `k` map to `v`. -/
theorem claimsGet_claimsSet_self (d : Claims) (k : String) (v : ClaimVal) :
    claimsGet (claimsSet d k v) k = some v := by
  unfold claimsSet
  split
  · exact claimsGet_map_update v (by assumption)
  · rename_i hno
    exact claimsGet_append_self v (Option.not_isSome_iff_eq_none.mp hno)

/-- A `dict.update`-style overwrite leaves the other keys untouched. -/
theorem claimsGet_map_update_ne {k k' : String} (h : k' ≠ k) (v : ClaimVal) :
    ∀ d : Claims,
      claimsGet (d.map (fun p => if p.1 = k then (k, v) else p)) k' = claimsGet d k' := by
  intro d
  induction d with
  | nil => rfl
  | cons p rest ih =>
    obtain ⟨k₀, v₀⟩ := p
    by_cases hk0 : k₀ = k
    · subst hk0
      simp only [List.map_cons]
      rw [if_pos trivial]
      simp only [claimsGet]
      rw [if_neg h, if_neg h]
      exact ih
    · simp only [List.map_cons]
      rw [show (if ((k₀, v₀) : String × ClaimVal).1 = k then (k, v) else (k₀, v₀))
            = (k₀, v₀) from if_neg hk0]
      simp only [claimsGet]
      by_cases hk' : k' = k₀
      · rw [if_pos hk', if_pos hk']
      · rw [if_neg hk', if_neg hk']
        exact ih

/-- A `dict.update`-style append leaves the other keys untouched. -/
theorem claimsGet_append_ne {k k' : String} (h : k' ≠ k) (v : ClaimVal) :
    ∀ d : Claims, claimsGet (d ++ [(k, v)]) k' = claimsGet d k' := by
  intro d
  induction d with
  | nil => simp [claimsGet, h]
  | cons p rest ih =>
    obtain ⟨k₀, v₀⟩ := p
    simp only [List.cons_append, claimsGet]
    by_cases hk' : k' = k₀
    · rw [if_pos hk', if_pos hk']
    · rw [if_neg hk', if_neg hk']
      exact ih

/-- `d.update({k: v})` leaves every other key's value unchanged. -/
theorem claimsGet_claimsSet_ne (d : Claims) (k k' : String) (v : ClaimVal)
    (h : k' ≠ k) : claimsGet (claimsSet d k v) k' = claimsGet d k' := by
  unfold claimsSet
  split
  · exact claimsGet_map_update_ne h v d
  · exact claimsGet_append_ne h v d

/-- **C6** (counterexample). For the empty claims payload `c = {}` and
`t = 60`, verifying immediately after issuance does not return `c`: the
result additionally carries the `exp` claim that `create_access_token`
embedded, so it differs from `c` at the key `"exp"`. -/
theorem C6_counterexample :
    decodeAccessToken testSettings 0 (createAccessToken testSettings 0 [] (some 60))
      = .ok [("exp", .n 60)]
    ∧ ¬ claimsEquiv [("exp", ClaimVal.n 60)] [] :=
  ⟨by decide, fun h => by simpa [claimsGet] using h "exp"⟩

/-- **C6** (amended): for every claims payload `c` and ttl `t > 0`,
verifying immediately after issuance succeeds and returns `c` extended
with the absolute-expiry claim `exp = now + t` (every key other than
`exp` keeps its value from `c`), and verification fails with `Expired`
once time exceeds the issuance time plus `t`. -/
theorem C6_issue_verify_roundtrip :
    ∀ (S : Settings) (now now' : Nat) (c : Claims) (t : Nat), 0 < t →
      decodeAccessToken S now (createAccessToken S now c (some t))
          = .ok (claimsSet c "exp" (.n (now + t)))
      ∧ (∀ k, k ≠ "exp" →
          claimsGet (claimsSet c "exp" (.n (now + t))) k = claimsGet c k)
      ∧ (now + t < now' →
          decodeAccessToken S now' (createAccessToken S now c (some t))
            = .error .expiredSignature) := by
  intro S now now' c t ht
  have hdelta : expiresOrDefault (some t) S = t := by
    unfold expiresOrDefault
    dsimp only
    rw [if_neg (Nat.pos_iff_ne_zero.mp ht)]
  refine ⟨?_, fun k hk => claimsGet_claimsSet_ne _ _ _ _ hk, ?_⟩
  · unfold createAccessToken decodeAccessToken jwtEncode jwtDecode
    rw [hdelta]
    dsimp only
    rw [if_pos rfl, claimsGet_claimsSet_self]
    dsimp only
    rw [if_neg (by omega)]
  · intro hlt
    unfold createAccessToken decodeAccessToken jwtEncode jwtDecode
    rw [hdelta]
    dsimp only
    rw [if_pos rfl, claimsGet_claimsSet_self]
    dsimp only
    rw [if_pos hlt]

/-- Witness for `C6_issue_verify_roundtrip` at a concrete payload,
ttl 60 and verification times 0 (fresh) and 100 (expired). -/
theorem C6_issue_verify_roundtrip_witness :
    0 < 60
    ∧ decodeAccessToken testSettings 0
        (createAccessToken testSettings 0 [("sub", ClaimVal.s "u1")] (some 60))
        = .ok (claimsSet [("sub", ClaimVal.s "u1")] "exp" (.n (0 + 60)))
    ∧ 0 + 60 < 100
    ∧ decodeAccessToken testSettings 100
        (createAccessToken testSettings 0 [("sub", ClaimVal.s "u1")] (some 60))
        = .error .expiredSignature :=
  ⟨by decide,
   (C6_issue_verify_roundtrip testSettings 0 100 [("sub", ClaimVal.s "u1")] 60 (by decide)).1,
   by decide,
   (C6_issue_verify_roundtrip testSettings 0 100 [("sub", ClaimVal.s "u1")] 60
     (by decide)).2.2 (by decide)⟩

/-- **C7**: a token signed under one secret never verifies under a
different secret — whatever the payload, the ttl, and the clock at either
end, `decode` rejects it with an invalid-signature error. -/
theorem C7_wrong_secret_rejected :
    ∀ (S₁ S₂ : Settings) (now now' : Nat) (data : Claims) (delta : Option Nat),
      S₁.jwtSecretKey ≠ S₂.jwtSecretKey →
      decodeAccessToken S₂ now' (createAccessToken S₁ now data delta)
        = .error .invalidSignature := by
  intro S₁ S₂ now now' data delta h
  have hne : JWTSig.mk S₁.jwtAlgorithm S₁.jwtSecretKey
        (claimsSet data "exp" (.n (now + expiresOrDefault delta S₁)))
      ≠ JWTSig.mk S₂.jwtAlgorithm S₂.jwtSecretKey
        (claimsSet data "exp" (.n (now + expiresOrDefault delta S₁))) := by
    intro heq
    injection heq with h1 h2 h3
    exact h h2
  unfold decodeAccessToken createAccessToken jwtEncode jwtDecode
  dsimp only
  rw [if_neg hne]

/-- Witness for `C7_wrong_secret_rejected` at concrete settings. -/
theorem C7_wrong_secret_rejected_witness :
    testSettings.jwtSecretKey ≠ otherSettings.jwtSecretKey
    ∧ decodeAccessToken otherSettings 0
        (createAccessToken testSettings 0 [("sub", ClaimVal.s "u1")] (some 60))
        = .error .invalidSignature :=
  ⟨by decide,
   C7_wrong_secret_rejected testSettings otherSettings 0 0
     [("sub", ClaimVal.s "u1")] (some 60) (by decide)⟩

/-! ## C5 -/

/-- The byte-string model of a string determines the string. -/
theorem strBytes_inj {s₁ s₂ : String} (h : strBytes s₁ = strBytes s₂) : s₁ = s₂ := by
  have hinj : Function.Injective (fun c : Char => c.val.toNat) := by
    intro a b hab
    exact Char.ext (UInt32.toNat.inj hab)
  exact String.ext (List.map_injective_iff.mpr hinj h)

/-- Every modelled byte is below the packing base. -/
theorem strBytes_lt (s : String) : ∀ d ∈ strBytes s, d < 4294967296 := by
  intro d hd
  obtain ⟨c, _, rfl⟩ := List.mem_map.mp hd
  exact UInt32.toNat_lt_size c.val

/-- The byte-string packing is injective on byte strings. -/
theorem packBytes_inj {l₁ l₂ : List Nat}
    (h₁ : ∀ d ∈ l₁, d < 4294967296) (h₂ : ∀ d ∈ l₂, d < 4294967296)
    (h : packBytes l₁ = packBytes l₂) : l₁ = l₂ := by
  have hbound : ∀ (l : List Nat), (∀ d ∈ l, d < 4294967296) →
      ∀ x ∈ l ++ [1], x < 4294967296 := by
    intro l hl x hx
    rcases List.mem_append.mp hx with hx | hx
    · exact hl x hx
    · rw [List.mem_singleton.mp hx]; norm_num
  have hlast : ∀ (l : List Nat) (hne : l ++ [1] ≠ []), (l ++ [1]).getLast hne ≠ 0 := by
    intro l hne
    rw [List.getLast_append_singleton]
    norm_num
  have hd₁ := Nat.digits_ofDigits 4294967296 (by norm_num) (l₁ ++ [1])
    (hbound l₁ h₁) (hlast l₁)
  have hd₂ := Nat.digits_ofDigits 4294967296 (by norm_num) (l₂ ++ [1])
    (hbound l₂ h₂) (hlast l₂)
  have happ : l₁ ++ [1] = l₂ ++ [1] := by
    rw [← hd₁, ← hd₂]
    unfold packBytes at h
    rw [h]
  exact List.append_left_injective [1] happ

/-- **C5**: under the `bcrypt_sha256` scheme the source selects (which
pre-hashes the password into a fixed-size block before bcrypt, so bcrypt's
72-byte key truncation never discards plaintext), verification accepts
exactly the hashed password: `verify(p, hash(p))` is true for every `p`,
and `verify(p₂, hash(p))` is false for every `p₂ ≠ p` — including pairs
that agree on their first 72 bytes and differ only beyond the primitive's
byte-length limit. The pre-hash digest is modelled as collision-free
(the standard ideal-primitive assumption). -/
theorem C5_hash_verify_roundtrip :
    ∀ (cost salt : Nat) (p p₂ : String),
      verifyPassword p (hashPassword cost salt p) = true
      ∧ (p₂ ≠ p → verifyPassword p₂ (hashPassword cost salt p) = false) := by
  intro cost salt p p₂
  constructor
  · unfold verifyPassword hashPassword bcryptRaw
    dsimp only
    simp
  · intro hne
    unfold verifyPassword hashPassword bcryptRaw bcryptSha256Key bcryptTruncate
    dsimp only
    rw [decide_eq_false]
    intro heq
    injection heq with hc hs hk
    have hx : hmacSha256 salt (strBytes p₂) = hmacSha256 salt (strBytes p) := by
      simpa using hk
    unfold hmacSha256 at hx
    have hpk := (Nat.pair_eq_pair.mp hx).2
    exact hne (strBytes_inj (packBytes_inj (strBytes_lt p₂) (strBytes_lt p) hpk))

/-- Two 73-byte passwords agreeing on their first 72 bytes. -/
def pwA : String := "aaaaaaaaaaaaaaaaaaaaaaaaaaaaaaaaaaaaaaaaaaaaaaaaaaaaaaaaaaaaaaaaaaaaaaaaa"

/-- `pwA` with only its 73rd byte changed. -/
def pwB : String := "aaaaaaaaaaaaaaaaaaaaaaaaaaaaaaaaaaaaaaaaaaaaaaaaaaaaaaaaaaaaaaaaaaaaaaaab"

/-- Witness for `C5_hash_verify_roundtrip`: `pwA` and `pwB` agree on their
first 72 bytes and differ only at byte 73, beyond raw bcrypt's key limit,
yet hashing distinguishes them. -/
theorem C5_hash_verify_roundtrip_witness :
    pwB ≠ pwA
    ∧ pwA.data.take 72 = pwB.data.take 72
    ∧ verifyPassword pwA (hashPassword 12 1 pwA) = true
    ∧ verifyPassword pwB (hashPassword 12 1 pwA) = false :=
  ⟨by decide, by decide,
   (C5_hash_verify_roundtrip 12 1 pwA pwB).1,
   (C5_hash_verify_roundtrip 12 1 pwA pwB).2 (by decide)⟩

end ExitPrep
